import Mathlib

/-!
Verification of the decision-logic core of the Algoallies healthcare portal.

The repository's frontend components (`HospitalFinderSimple.tsx`,
`AutonomousAgentPanel.tsx`, `MultiCityComparison.tsx`, the citizen dashboard)
are embedded directly from the TypeScript source.  The backend engine
(risk scoring, surge prediction, recommendations, multi-city aggregation and
the refresh scheduler) is exercised by the frontend over HTTP but its source
is not part of the checked-in tree, so those components are modelled from the
specification, as marked on each definition.
-/

namespace Algoallies

/-! ## Environmental reading and risk scoring (modelled from the spec) -/

/-- Modelled from the spec: `EnvironmentalReading` — normalized weather/AQI
snapshot for a location (temperature in °C, humidity percentage, integer
AQI ≥ 0, and the calendar month used by the seasonal component).  The backend
producing it is not in the checked-in tree. -/
structure EnvironmentalReading where
  temperature : ℚ
  humidity : ℚ
  aqi : ℕ
  month : ℕ
  deriving Repr, DecidableEq

/-- Modelled from the spec: temperature component — piecewise-linear mapping
from °C to 0–100, rising above the comfortable band (>32 °C) and below the
cold band (<15 °C), flat (low score) inside the band. -/
def temperatureScore (t : ℚ) : ℚ :=
  if t > 32 then min 100 (10 + (t - 32) * 5)
  else if t < 15 then min 100 (10 + (15 - t) * 5)
  else 10

/-- Modelled from the spec: AQI component — piecewise mapping following the
standard AQI category breakpoints (good / moderate / unhealthy-for-sensitive /
unhealthy / very-unhealthy / hazardous), scaled to 0–100. -/
def aqiScore (a : ℕ) : ℚ :=
  if a ≤ 50 then 10
  else if a ≤ 100 then 30
  else if a ≤ 150 then 50
  else if a ≤ 200 then 70
  else if a ≤ 300 then 85
  else 100

/-- Modelled from the spec: humidity component — penalizes extremes (very dry
or very humid) more than the moderate band. -/
def humidityScore (h : ℚ) : ℚ :=
  if h < 30 then 60
  else if h > 70 then 60
  else 20

/-- Modelled from the spec: seasonal component — a slowly-varying baseline
keyed by calendar month (monsoon / epidemic-prone months score higher),
supplied as a configuration table. -/
def seasonalScore (m : ℕ) : ℚ :=
  if 6 ≤ m ∧ m ≤ 9 then 70 else 30

/-- Modelled from the spec: the configurable weight table for combining the
four component scores (weights must sum to 1). -/
structure Weights where
  wTemp : ℚ
  wAqi : ℚ
  wHum : ℚ
  wSeas : ℚ
  deriving Repr, DecidableEq

/-- Modelled from the spec: `overall_risk_score` — the weighted sum of the
four component scores. -/
def overall_risk_score (w : Weights) (r : EnvironmentalReading) : ℚ :=
  w.wTemp * temperatureScore r.temperature
    + w.wAqi * aqiScore r.aqi
    + w.wHum * humidityScore r.humidity
    + w.wSeas * seasonalScore r.month

/-- Modelled from the spec: `risk_level` thresholds — [0,20) very_low,
[20,40) low, [40,60) moderate, [60,80) high, [80,100] very_high. -/
def riskLevelOf (score : ℚ) : String :=
  if score < 20 then "very_low"
  else if score < 40 then "low"
  else if score < 60 then "moderate"
  else if score < 80 then "high"
  else "very_high"

/-! ## Surge prediction (modelled from the spec) -/

/-- Modelled from the spec: `DepartmentBaseline` — department name,
non-negative baseline patient count, and the department's sensitivity weights
for the four risk components. -/
structure DepartmentBaseline where
  name : String
  base_patients : ℕ
  wTemp : ℚ
  wAqi : ℚ
  wHum : ℚ
  wSeas : ℚ
  deriving Repr, DecidableEq

/-- Modelled from the spec: the department-specific weighted combination of
the four component scores (same weighting mechanism as the overall score but
department-scoped). -/
def deptWeightedScore (d : DepartmentBaseline) (r : EnvironmentalReading) : ℚ :=
  d.wTemp * temperatureScore r.temperature
    + d.wAqi * aqiScore r.aqi
    + d.wHum * humidityScore r.humidity
    + d.wSeas * seasonalScore r.month

/-- Modelled from the spec: the department surge multiplier, the weighted
score mapped into a multiplier with floor 1.0 (surge never reduces patient
counts in this model). -/
def deptMultiplier (d : DepartmentBaseline) (r : EnvironmentalReading) : ℚ :=
  max 1 (1 + deptWeightedScore d r / 100)

/-- Modelled from the spec:
`predicted_patients = round(base_patients * multiplier)`. -/
def predictedPatients (d : DepartmentBaseline) (r : EnvironmentalReading) : ℤ :=
  round ((d.base_patients : ℚ) * deptMultiplier d r)

/-- Modelled from the spec:
`surge_percentage = (predicted_patients - base_patients) / base_patients * 100`,
defined as 0 when `base_patients == 0`. -/
def surgePercentage (d : DepartmentBaseline) (r : EnvironmentalReading) : ℚ :=
  if d.base_patients = 0 then 0
  else ((predictedPatients d r : ℚ) - (d.base_patients : ℚ)) / (d.base_patients : ℚ) * 100

/-- One department's row of a surge report (shape taken from the
`department_predictions` record of the `SurgeReport` interface in
src/unnamed/part_000's dashboard component). -/
structure DepartmentPrediction where
  name : String
  base_patients : ℕ
  predicted_patients : ℤ
  surge_percentage : ℚ
  deriving Repr, DecidableEq

/-- Surge report shape consumed by the dashboards: department predictions,
their total, and the derived risk level. -/
structure SurgeReport where
  risk_level : String
  department_predictions : List DepartmentPrediction
  total_predicted_patients : ℤ
  deriving Repr, DecidableEq

/-- Modelled from the spec: `compute_surge(reading, baselines)` — one
prediction per supplied department baseline, in the same order, with
`total_predicted_patients` the sum of the per-department predictions. -/
def compute_surge (w : Weights) (depts : List DepartmentBaseline)
    (r : EnvironmentalReading) : SurgeReport :=
  let preds := depts.map fun d =>
    DepartmentPrediction.mk d.name d.base_patients (predictedPatients d r)
      (surgePercentage d r)
  { risk_level := riskLevelOf (overall_risk_score w r)
    department_predictions := preds
    total_predicted_patients := (preds.map (·.predicted_patients)).sum }

/-! ## Helper lemmas -/

/-- Rounding is monotone. -/
theorem round_le_of_le {x y : ℚ} (h : x ≤ y) : round x ≤ round y := by
  rw [round_eq, round_eq]
  exact Int.floor_mono (by linarith)

/-- The department multiplier is at least 1. -/
theorem one_le_deptMultiplier (d : DepartmentBaseline) (r : EnvironmentalReading) :
    1 ≤ deptMultiplier d r :=
  le_max_left 1 _

/-- Predicted patients never fall below the baseline. -/
theorem base_le_predictedPatients (d : DepartmentBaseline) (r : EnvironmentalReading) :
    (d.base_patients : ℤ) ≤ predictedPatients d r := by
  have hmul : (d.base_patients : ℚ) ≤ (d.base_patients : ℚ) * deptMultiplier d r := by
    have h1 : 1 ≤ deptMultiplier d r := one_le_deptMultiplier d r
    have h0 : (0 : ℚ) ≤ (d.base_patients : ℚ) := by positivity
    nlinarith
  have := round_le_of_le hmul
  rwa [round_natCast] at this

/-- The AQI component score is monotone in the AQI value. -/
theorem aqiScore_mono {a b : ℕ} (h : a ≤ b) : aqiScore a ≤ aqiScore b := by
  unfold aqiScore
  split_ifs <;> first | omega | norm_num

/-- Monotonicity of the department weighted score in AQI, all else fixed,
for a department with non-negative AQI sensitivity weight. -/
theorem deptWeightedScore_aqi_mono (d : DepartmentBaseline)
    (r : EnvironmentalReading) {a1 a2 : ℕ} (hw : 0 ≤ d.wAqi) (h : a1 ≤ a2) :
    deptWeightedScore d { r with aqi := a1 } ≤ deptWeightedScore d { r with aqi := a2 } := by
  unfold deptWeightedScore
  have := aqiScore_mono h
  have := mul_le_mul_of_nonneg_left (aqiScore_mono h) hw
  simp only
  linarith

/-- Monotonicity of predicted patients in AQI, all else fixed, for a
department with non-negative AQI sensitivity weight. -/
theorem predictedPatients_aqi_mono (d : DepartmentBaseline)
    (r : EnvironmentalReading) {a1 a2 : ℕ} (hw : 0 ≤ d.wAqi) (h : a1 ≤ a2) :
    predictedPatients d { r with aqi := a1 } ≤ predictedPatients d { r with aqi := a2 } := by
  apply round_le_of_le
  have hmul : deptMultiplier d { r with aqi := a1 } ≤ deptMultiplier d { r with aqi := a2 } := by
    unfold deptMultiplier
    have := deptWeightedScore_aqi_mono d r hw h
    apply max_le_max le_rfl
    linarith
  have h0 : (0 : ℚ) ≤ (d.base_patients : ℚ) := by positivity
  exact mul_le_mul_of_nonneg_left hmul h0

/-! ## Claim theorems for the surge predictor -/

/-- C1.  In every `SurgeReport` produced by `compute_surge`, each department
prediction has `predicted_patients` an integer at least `base_patients`
(the multiplier floor is 1.0), and `surge_percentage = 0` whenever
`base_patients = 0`. -/
theorem surge_report_floor_invariant (w : Weights) (depts : List DepartmentBaseline)
    (r : EnvironmentalReading) (p : DepartmentPrediction)
    (hp : p ∈ (compute_surge w depts r).department_predictions) :
    (p.base_patients : ℤ) ≤ p.predicted_patients ∧
      (p.base_patients = 0 → p.surge_percentage = 0) := by
  simp only [compute_surge, List.mem_map] at hp
  obtain ⟨d, _, rfl⟩ := hp
  refine ⟨base_le_predictedPatients d r, fun h0 => ?_⟩
  have hb : d.base_patients = 0 := h0
  simp [surgePercentage, hb]

/-- C1 witness: a concrete report satisfying the invariant at a department
with zero baseline. -/
theorem surge_report_floor_invariant_witness :
    ((DepartmentPrediction.mk "Respiratory" 0
        (predictedPatients (DepartmentBaseline.mk "Respiratory" 0 0 (6/10) (1/10) (1/10))
          (EnvironmentalReading.mk 38 70 180 7))
        (surgePercentage (DepartmentBaseline.mk "Respiratory" 0 0 (6/10) (1/10) (1/10))
          (EnvironmentalReading.mk 38 70 180 7))).base_patients : ℤ) ≤
      (DepartmentPrediction.mk "Respiratory" 0
        (predictedPatients (DepartmentBaseline.mk "Respiratory" 0 0 (6/10) (1/10) (1/10))
          (EnvironmentalReading.mk 38 70 180 7))
        (surgePercentage (DepartmentBaseline.mk "Respiratory" 0 0 (6/10) (1/10) (1/10))
          (EnvironmentalReading.mk 38 70 180 7))).predicted_patients := by
  have h := surge_report_floor_invariant
    (Weights.mk (1/4) (1/4) (1/4) (1/4))
    [DepartmentBaseline.mk "Respiratory" 0 0 (6/10) (1/10) (1/10)]
    (EnvironmentalReading.mk 38 70 180 7)
    (DepartmentPrediction.mk "Respiratory" 0
      (predictedPatients (DepartmentBaseline.mk "Respiratory" 0 0 (6/10) (1/10) (1/10))
        (EnvironmentalReading.mk 38 70 180 7))
      (surgePercentage (DepartmentBaseline.mk "Respiratory" 0 0 (6/10) (1/10) (1/10))
        (EnvironmentalReading.mk 38 70 180 7)))
    (by simp [compute_surge])
  exact h.1

/-- C2.  In every `SurgeReport` produced by `compute_surge`, the
`total_predicted_patients` field equals the exact sum of `predicted_patients`
over the report's department predictions. -/
theorem surge_report_total_is_sum (w : Weights) (depts : List DepartmentBaseline)
    (r : EnvironmentalReading) :
    (compute_surge w depts r).total_predicted_patients =
      ((compute_surge w depts r).department_predictions.map
        (·.predicted_patients)).sum := rfl

/-- C3.  Increasing AQI alone, with temperature, humidity, month, baselines
and weights fixed, never decreases `overall_risk_score` (for a non-negative
AQI weight), and no department with non-negative AQI sensitivity sees its
`predicted_patients` decrease: the reports for the two readings agree
position-by-position with the larger-AQI report dominating. -/
theorem aqi_monotonicity (w : Weights) (depts : List DepartmentBaseline)
    (r : EnvironmentalReading) (a1 a2 : ℕ)
    (hw : 0 ≤ w.wAqi) (hd : ∀ d ∈ depts, 0 ≤ d.wAqi) (h : a1 ≤ a2) :
    overall_risk_score w { r with aqi := a1 } ≤ overall_risk_score w { r with aqi := a2 } ∧
      ∀ i : ℕ, ∀ h1 : i < (compute_surge w depts { r with aqi := a1 }).department_predictions.length,
        ∀ h2 : i < (compute_surge w depts { r with aqi := a2 }).department_predictions.length,
        ((compute_surge w depts { r with aqi := a1 }).department_predictions.get ⟨i, h1⟩).predicted_patients ≤
          ((compute_surge w depts { r with aqi := a2 }).department_predictions.get ⟨i, h2⟩).predicted_patients := by
  constructor
  · unfold overall_risk_score
    have := mul_le_mul_of_nonneg_left (aqiScore_mono h) hw
    simp only
    linarith
  · intro i h1 h2
    simp only [compute_surge, List.get_eq_getElem, List.getElem_map] at h1 h2 ⊢
    rw [List.length_map] at h1 h2
    exact predictedPatients_aqi_mono depts[i] r (hd _ (List.getElem_mem h1)) h

/-- C3 witness: the monotonicity theorem instantiated at AQI 40 versus 180
for one respiratory department. -/
theorem aqi_monotonicity_witness :
    overall_risk_score (Weights.mk (1/4) (1/4) (1/4) (1/4))
        { EnvironmentalReading.mk 24 50 0 7 with aqi := 40 } ≤
      overall_risk_score (Weights.mk (1/4) (1/4) (1/4) (1/4))
        { EnvironmentalReading.mk 24 50 0 7 with aqi := 180 } := by
  have h := aqi_monotonicity (Weights.mk (1/4) (1/4) (1/4) (1/4))
    [DepartmentBaseline.mk "Respiratory" 100 0 (6/10) (1/10) (1/10)]
    (EnvironmentalReading.mk 24 50 0 7) 40 180
    (by norm_num)
    (by intro d hd; simp at hd; subst hd; norm_num)
    (by norm_num)
  exact h.1

/-! ## Hospital finder cache (embedded from
`src/frontend/src/components/HospitalFinderSimple.tsx`) -/

/-- Coordinates as used by `HospitalFinderSimple` (`UserLocation`). -/
structure Coords where
  lat : ℚ
  lon : ℚ
  deriving Repr, DecidableEq

/-- A medical facility, from the `Facility` interface of
`HospitalFinderSimple.tsx`. -/
structure Facility where
  name : String
  type : String
  latitude : ℚ
  longitude : ℚ
  address : String
  distance_km : ℚ
  deriving Repr, DecidableEq

/-- `HOSPITAL_CACHE_DURATION = 30 * 60 * 1000` milliseconds (30 minutes). -/
def HOSPITAL_CACHE_DURATION : ℤ := 30 * 60 * 1000

/-- The record stored under `HOSPITAL_CACHE_KEY` in session storage: the
component always serializes all four fields together. -/
structure CachedSearch where
  userLocation : Coords
  facilities : List Facility
  radiusKm : ℚ
  timestamp : ℤ
  deriving Repr, DecidableEq

/-- Result of `JSON.parse` on the raw stored string: either a well-formed
cached record or unparseable garbage (which makes `JSON.parse` throw). -/
inductive StoredData where
  | garbage : StoredData
  | record : CachedSearch → StoredData
  deriving Repr, DecidableEq

/-- What the cache-loading effect reports back to the component state. -/
inductive LoadOutcome where
  | hit : CachedSearch → LoadOutcome
  | miss : LoadOutcome
  deriving Repr, DecidableEq

/-- Embeds the cache write in `handleSearchHospitals`:
`sessionStorage.setItem(HOSPITAL_CACHE_KEY, JSON.stringify(\x7b userLocation,
facilities, radiusKm, timestamp \x7d))` — a single write of the complete
record that wholly replaces whatever was stored before. -/
def saveHospitalCache (_prior : Option StoredData) (entry : CachedSearch) :
    Option StoredData :=
  some (.record entry)

/-- Embeds the cache-loading effect that runs on component mount: reads the
stored string; on parse failure removes the item and reports a miss; on a
parsed record checks `now - timestamp < HOSPITAL_CACHE_DURATION`, restoring
the full record when fresh and removing the item (miss) when expired.
Returns the outcome together with the storage state it leaves behind. -/
def loadHospitalCache (store : Option StoredData) (now : ℤ) :
    LoadOutcome × Option StoredData :=
  match store with
  | none => (.miss, none)
  | some .garbage => (.miss, none)
  | some (.record entry) =>
    if now - entry.timestamp < HOSPITAL_CACHE_DURATION then
      (.hit entry, some (.record entry))
    else
      (.miss, none)

/-- A concrete cached entry used for the C4 counterexample. -/
def sampleCachedSearch : CachedSearch :=
  { userLocation := { lat := 19076/1000, lon := 728777/10000 }
    facilities := []
    radiusKm := 5/2
    timestamp := 0 }

/-- C4 counterexample.  The claim reads staleness as `age > TTL`, so a query
at age exactly `TTL` (1800 s = 1800000 ms here) should return the cached
value; the code instead treats that entry as expired: loading a record of
timestamp 0 at `now = HOSPITAL_CACHE_DURATION` yields a miss and clears the
stored entry, even though the age does not exceed the TTL. -/
theorem cache_boundary_counterexample :
    loadHospitalCache (some (.record sampleCachedSearch)) HOSPITAL_CACHE_DURATION =
        (.miss, none) ∧
      HOSPITAL_CACHE_DURATION - sampleCachedSearch.timestamp ≤ HOSPITAL_CACHE_DURATION := by
  constructor
  · simp [loadHospitalCache, sampleCachedSearch, HOSPITAL_CACHE_DURATION]
  · simp [sampleCachedSearch]

/-- C4 (amended).  A cache entry is stale exactly when
`now - computed_at ≥ TTL`: a load at age strictly below the TTL returns the
cached value unchanged (no recomputation), and a load at age at or above the
TTL misses and clears the entry.  In particular at TTL 1800 s a query at age
1799 s hits and one at 1801 s misses. -/
theorem cache_staleness_iff (entry : CachedSearch) (now : ℤ) :
    (if now - entry.timestamp < HOSPITAL_CACHE_DURATION then
        loadHospitalCache (some (.record entry)) now =
          (.hit entry, some (.record entry))
      else
        loadHospitalCache (some (.record entry)) now = (.miss, none)) := by
  unfold loadHospitalCache
  split_ifs with h <;> simp [h]

/-- C10.  The cache entry is always published as one complete record in a
single write that wholly replaces any prior stored value; on load, a miss
(absent, unparseable or expired entry) always leaves the storage cleared of
any stale entry it consumed, and a hit restores exactly the complete stored
record, which must still be fresh.  The loader is a total function: it never
throws and never produces a partial state. -/
theorem cache_publish_and_load_integrity (prior : Option StoredData)
    (entry : CachedSearch) (store : Option StoredData) (now : ℤ) :
    saveHospitalCache prior entry = some (.record entry) ∧
      ((loadHospitalCache store now).1 = .miss →
        (loadHospitalCache store now).2 = none) ∧
      (∀ e : CachedSearch, (loadHospitalCache store now).1 = .hit e →
        store = some (.record e) ∧
          (loadHospitalCache store now).2 = some (.record e) ∧
          now - e.timestamp < HOSPITAL_CACHE_DURATION) := by
  refine ⟨rfl, ?_, ?_⟩
  · intro hmiss
    match store with
    | none => rfl
    | some .garbage => rfl
    | some (.record e) =>
      by_cases h : now - e.timestamp < HOSPITAL_CACHE_DURATION
      · simp [loadHospitalCache, h] at hmiss
      · simp [loadHospitalCache, h]
  · intro e hhit
    match store with
    | none => simp [loadHospitalCache] at hhit
    | some .garbage => simp [loadHospitalCache] at hhit
    | some (.record e2) =>
      by_cases h : now - e2.timestamp < HOSPITAL_CACHE_DURATION
      · simp [loadHospitalCache, h] at hhit ⊢
        subst hhit
        exact ⟨rfl, h⟩
      · simp [loadHospitalCache, h] at hhit

/-- C10 witness: saving then loading a fresh concrete entry restores it
completely, and loading garbage misses with the store cleared. -/
theorem cache_publish_and_load_integrity_witness :
    loadHospitalCache (some (.record sampleCachedSearch)) 1000 =
        (.hit sampleCachedSearch, some (.record sampleCachedSearch)) ∧
      loadHospitalCache (some .garbage) 1000 = (.miss, none) := by
  have h := cache_publish_and_load_integrity none sampleCachedSearch
    (some (.record sampleCachedSearch)) 1000
  have hmiss := cache_publish_and_load_integrity none sampleCachedSearch
    (some .garbage) 1000
  constructor
  · have hh := h.2.2 sampleCachedSearch
    have : (loadHospitalCache (some (.record sampleCachedSearch)) 1000).1 =
        .hit sampleCachedSearch := by
      simp [loadHospitalCache, sampleCachedSearch, HOSPITAL_CACHE_DURATION]
    obtain ⟨-, h2, -⟩ := hh this
    exact Prod.ext this h2
  · have : (loadHospitalCache (some .garbage) 1000).1 = .miss := rfl
    exact Prod.ext this (hmiss.2.1 this)

/-! ## Temperature health recommendation (embedded from the
`getHealthRecommendation` function of the citizen dashboard,
src/unnamed/part_001) -/

/-- The high-temperature advice string returned for `temp > 32`. -/
def heatAdvice : String :=
  "🌡️ High temperature detected. Stay hydrated, avoid going out in peak afternoon heat, and wear light clothing."

/-- The cold-weather advice string returned for `temp < 15`. -/
def coldAdvice : String :=
  "❄️ Cold weather alert. Keep warm, avoid sudden exposure to cold air, and drink warm fluids."

/-- The moderate-weather advice string returned inside the band. -/
def moderateAdvice : String :=
  "☀️ Weather is moderate. Maintain regular hydration, light activity, and balanced nutrition."

/-- Embeds `getHealthRecommendation(temp)` from the citizen dashboard:
`if (temp > 32)` high-temperature advice, `else if (temp < 15)` cold-weather
advice, `else` moderate advice. -/
def getHealthRecommendation (temp : ℚ) : String :=
  if temp > 32 then heatAdvice
  else if temp < 15 then coldAdvice
  else moderateAdvice

/-- C8.  For every temperature, `getHealthRecommendation` selects exactly one
of the three advice strings: the high-temperature advice exactly when
`temp > 32`, the cold-weather advice exactly when `temp < 15`, and the
moderate advice exactly on the inclusive band `15 ≤ temp ≤ 32`. -/
theorem health_recommendation_trichotomy (temp : ℚ) :
    (getHealthRecommendation temp = heatAdvice ↔ 32 < temp) ∧
      (getHealthRecommendation temp = coldAdvice ↔ temp < 15) ∧
      (getHealthRecommendation temp = moderateAdvice ↔ 15 ≤ temp ∧ temp ≤ 32) := by
  have hc : heatAdvice ≠ coldAdvice := by decide
  have hm : heatAdvice ≠ moderateAdvice := by decide
  have cm : coldAdvice ≠ moderateAdvice := by decide
  unfold getHealthRecommendation
  split_ifs with h1 h2
  · refine ⟨⟨fun _ => h1, fun _ => rfl⟩, ⟨fun he => absurd he hc, fun hlt => ?_⟩,
      ⟨fun he => absurd he hm, fun hband => ?_⟩⟩
    · linarith
    · linarith [hband.2]
  · refine ⟨⟨fun he => absurd he.symm hc, fun hgt => ?_⟩, ⟨fun _ => h2, fun _ => rfl⟩,
      ⟨fun he => absurd he cm, fun hband => ?_⟩⟩
    · linarith
    · linarith [hband.1]
  · refine ⟨⟨fun he => absurd he.symm hm, fun hgt => ?_⟩,
      ⟨fun he => absurd he.symm cm, fun hlt => ?_⟩,
      ⟨fun _ => ⟨by linarith, by linarith⟩, fun _ => rfl⟩⟩
    · exact absurd hgt h1
    · exact absurd hlt h2

/-! ## Nearby-facility search (embedded from `handleSearchHospitals` in
`src/frontend/src/components/HospitalFinderSimple.tsx`) -/

/-- Outcome of one `fetch` of the nearby-facilities endpoint: either the
awaited promise rejects (network failure), or an HTTP response arrives with
its `ok` flag and the parsed JSON body's `success`, `facilities` (possibly
null) and optional `radius_km` fields. -/
inductive FetchResult where
  | reject : FetchResult
  | response (ok : Bool) (success : Bool) (facilities : Option (List Facility))
      (radius_km : Option ℚ) : FetchResult
  deriving Repr, DecidableEq

/-- The fixed fallback coordinates (Mumbai, 19.0760 / 72.8777). -/
def mumbaiCoords : Coords := { lat := 19076/1000, lon := 728777/10000 }

/-- What a successful search hands to the cache write: the facility list and
the radius value stored (`data.radius_km || radiusKm`). -/
structure SearchSuccess where
  facilities : List Facility
  cachedRadius : ℚ
  deriving Repr, DecidableEq

/-- Embeds one search attempt of `handleSearchHospitals` at given
coordinates: fetch at radius 2.5 km; a rejected promise or `!response.ok`
throws; on `data.success` with a null or empty facility list, one widened
fetch at 5.0 km whose result replaces the data only if it is `ok` and
`success`; finally succeed when `data.success` holds and throw otherwise.
Returns the outcome and the trace of `(coords, radius)` fetch calls made. -/
def searchAttempt (fetch : Coords → ℚ → FetchResult) (coords : Coords)
    (closureRadius : ℚ) : Except Unit SearchSuccess × List (Coords × ℚ) :=
  match fetch coords (5/2) with
  | .reject => (.error (), [(coords, 5/2)])
  | .response ok succ facs rad =>
    if ok = true then
      if succ = true ∧ facs.getD [] = [] then
        match fetch coords 5 with
        | .reject => (.error (), [(coords, 5/2), (coords, 5)])
        | .response ok2 succ2 facs2 rad2 =>
          if ok2 = true ∧ succ2 = true then
            (.ok { facilities := facs2.getD [], cachedRadius := rad2.getD closureRadius },
              [(coords, 5/2), (coords, 5)])
          else
            (.ok { facilities := facs.getD [], cachedRadius := rad.getD closureRadius },
              [(coords, 5/2), (coords, 5)])
      else if succ = true then
        (.ok { facilities := facs.getD [], cachedRadius := rad.getD closureRadius },
          [(coords, 5/2)])
      else
        (.error (), [(coords, 5/2)])
    else
      (.error (), [(coords, 5/2)])

/-- Embeds `handleSearchHospitals`: the geolocation result (`none` when it
fails) selects the primary attempt's coordinates; any failure of the primary
path falls back to exactly one further attempt at the fixed Mumbai
coordinates, whose failure is surfaced as the final error.  Returns the
outcome and the concatenated fetch trace. -/
def handleSearchHospitals (fetch : Coords → ℚ → FetchResult)
    (geo : Option Coords) (closureRadius : ℚ) :
    Except Unit SearchSuccess × List (Coords × ℚ) :=
  match geo with
  | some coords =>
    match searchAttempt fetch coords closureRadius with
    | (.ok s, t) => (.ok s, t)
    | (.error _, t) =>
      let fb := searchAttempt fetch mumbaiCoords closureRadius
      (fb.1, t ++ fb.2)
  | none => searchAttempt fetch mumbaiCoords closureRadius

/-- One attempt makes at most two fetches. -/
theorem searchAttempt_trace_length (fetch : Coords → ℚ → FetchResult)
    (coords : Coords) (closureRadius : ℚ) :
    (searchAttempt fetch coords closureRadius).2.length ≤ 2 := by
  unfold searchAttempt
  cases h : fetch coords (5/2) with
  | reject => simp
  | response ok succ facs rad =>
    simp only
    split_ifs with h1 h2 h3
    · cases h5 : fetch coords 5 with
      | reject => simp
      | response ok2 succ2 facs2 rad2 =>
        simp only
        split_ifs <;> simp
    · simp
    · simp
    · simp

/-- A widened 5.0 km fetch happens only after the 2.5 km fetch returned an
`ok`, `success` response whose facility list was null or empty. -/
theorem searchAttempt_widened_only_after_empty (fetch : Coords → ℚ → FetchResult)
    (coords : Coords) (closureRadius : ℚ)
    (hmem : (coords, (5 : ℚ)) ∈ (searchAttempt fetch coords closureRadius).2) :
    ∃ facs rad, fetch coords (5/2) = .response true true facs rad ∧
      facs.getD [] = [] := by
  unfold searchAttempt at hmem
  cases h : fetch coords (5/2) with
  | reject =>
    rw [h] at hmem
    simp at hmem
    norm_num at hmem
  | response ok succ facs rad =>
    rw [h] at hmem
    simp only at hmem
    split_ifs at hmem with h1 h2 h3
    · obtain ⟨hs, he⟩ := h2
      subst h1
      subst hs
      exact ⟨facs, rad, rfl, he⟩
    · simp at hmem
      norm_num at hmem
    · simp at hmem
      norm_num at hmem
    · simp at hmem
      norm_num at hmem

/-- C9.  The nearby-facility search never retries in an unbounded loop: the
whole handler makes at most 4 fetch calls; each attempt makes at most 2; a
widened 5.0 km retry occurs only immediately after an empty (or null)
successful 2.5 km result; and the trace is either the primary attempt alone
or the primary attempt followed by exactly one fallback attempt at the fixed
Mumbai coordinates. -/
theorem search_retries_bounded (fetch : Coords → ℚ → FetchResult)
    (geo : Option Coords) (closureRadius : ℚ) :
    (handleSearchHospitals fetch geo closureRadius).2.length ≤ 4 ∧
      (∀ coords, (searchAttempt fetch coords closureRadius).2.length ≤ 2) ∧
      (∀ coords, (coords, (5 : ℚ)) ∈ (searchAttempt fetch coords closureRadius).2 →
        ∃ facs rad, fetch coords (5/2) = .response true true facs rad ∧
          facs.getD [] = []) ∧
      ((handleSearchHospitals fetch geo closureRadius).2 =
          (searchAttempt fetch (geo.getD mumbaiCoords) closureRadius).2 ∨
        (handleSearchHospitals fetch geo closureRadius).2 =
          (searchAttempt fetch (geo.getD mumbaiCoords) closureRadius).2 ++
            (searchAttempt fetch mumbaiCoords closureRadius).2) := by
  have hshape : (handleSearchHospitals fetch geo closureRadius).2 =
      (searchAttempt fetch (geo.getD mumbaiCoords) closureRadius).2 ∨
      (handleSearchHospitals fetch geo closureRadius).2 =
      (searchAttempt fetch (geo.getD mumbaiCoords) closureRadius).2 ++
        (searchAttempt fetch mumbaiCoords closureRadius).2 := by
    match geo with
    | none => left; rfl
    | some coords =>
      rcases hatt : searchAttempt fetch coords closureRadius with ⟨r, t⟩
      cases r with
      | ok s =>
        left
        simp [handleSearchHospitals, hatt]
      | error e =>
        right
        simp [handleSearchHospitals, hatt]
  refine ⟨?_, fun c => searchAttempt_trace_length fetch c closureRadius,
    fun c => searchAttempt_widened_only_after_empty fetch c closureRadius, hshape⟩
  rcases hshape with hs | hs <;> rw [hs]
  · calc (searchAttempt fetch (geo.getD mumbaiCoords) closureRadius).2.length ≤ 2 :=
      searchAttempt_trace_length fetch _ closureRadius
    _ ≤ 4 := by norm_num
  · rw [List.length_append]
    have h1 := searchAttempt_trace_length fetch (geo.getD mumbaiCoords) closureRadius
    have h2 := searchAttempt_trace_length fetch mumbaiCoords closureRadius
    omega

/-- A concrete fetch oracle for the C9 witness: the 2.5 km query succeeds
with an empty facility list, the 5.0 km query succeeds with one facility. -/
def sampleFetch (_coords : Coords) (radius : ℚ) : FetchResult :=
  if radius = 5/2 then .response true true (some []) none
  else .response true true
    (some [{ name := "City Hospital", type := "hospital", latitude := 19,
             longitude := 72, address := "Mumbai", distance_km := 3 }]) (some 5)

/-- C9 witness: the bound instantiated at the concrete oracle, where the
widened retry fires and the total trace still has at most 4 fetches. -/
theorem search_retries_bounded_witness :
    (handleSearchHospitals sampleFetch (some mumbaiCoords) (5/2)).2.length ≤ 4 ∧
      (∃ facs rad, sampleFetch mumbaiCoords (5/2) = .response true true facs rad ∧
        facs.getD [] = []) := by
  have h := search_retries_bounded sampleFetch (some mumbaiCoords) (5/2)
  refine ⟨h.1, h.2.2.1 mumbaiCoords ?_⟩
  have htrace : (searchAttempt sampleFetch mumbaiCoords (5/2)).2 =
      [(mumbaiCoords, 5/2), (mumbaiCoords, 5)] := by
    norm_num [searchAttempt, sampleFetch]
  rw [htrace]
  norm_num

/-! ## Refresh scheduler (modelled from the spec, §4.5) -/

/-- Modelled from the spec: the per-cache-key state machine of the
RefreshScheduler — `Idle → Computing → Cached → (TTL expiry) → Stale →
Computing …`.  Staleness of a cached value is judged against its
computed-at timestamp.  The backend scheduler is not in the checked-in
tree. -/
inductive KeyState where
  | idle : KeyState
  | computing : KeyState
  | cached (value : ℕ) (computedAt : ℕ) : KeyState
  deriving Repr, DecidableEq

/-- Scheduler state for one cache key together with the number of pipeline
executions started so far. -/
structure SchedulerState where
  st : KeyState
  execCount : ℕ
  deriving Repr, DecidableEq

/-- What one `get_or_refresh` call observes. -/
inductive CallOutcome where
  | servedCached (value : ℕ) : CallOutcome
  | started : CallOutcome
  | joined : CallOutcome
  deriving Repr, DecidableEq

/-- Modelled from the spec: `get_or_refresh(key)` — if `Cached` and not
expired, return the cached value immediately; if `Computing`, join the same
in-flight computation rather than starting a duplicate; if `Stale` or
`Idle`, transition to `Computing` and start a (counted) pipeline
execution. -/
def getOrRefresh (ttl : ℕ) (s : SchedulerState) (now : ℕ) :
    SchedulerState × CallOutcome :=
  match s.st with
  | .computing => (s, .joined)
  | .cached v t =>
    if now - t ≤ ttl then (s, .servedCached v)
    else ({ st := .computing, execCount := s.execCount + 1 }, .started)
  | .idle => ({ st := .computing, execCount := s.execCount + 1 }, .started)

/-- Runs a burst of `get_or_refresh` calls (one per arrival time) with no
intervening completion, collecting each caller's outcome. -/
def runCalls (ttl : ℕ) (s : SchedulerState) (nows : List ℕ) :
    SchedulerState × List CallOutcome :=
  match nows with
  | [] => (s, [])
  | n :: rest =>
    let (s1, o) := getOrRefresh ttl s n
    let (s2, os) := runCalls ttl s1 rest
    (s2, o :: os)

/-- While the key is `Computing`, further calls change nothing and every
caller joins the in-flight execution. -/
theorem runCalls_computing (ttl : ℕ) (c : ℕ) (nows : List ℕ) :
    runCalls ttl { st := .computing, execCount := c } nows =
      ({ st := .computing, execCount := c }, nows.map fun _ => .joined) := by
  induction nows with
  | nil => rfl
  | cons n rest ih =>
    simp [runCalls, getOrRefresh, ih]

/-- C5.  When N ≥ 1 concurrent `get_or_refresh` calls arrive for a key whose
cache is empty (state `Idle`, no execution yet), exactly one pipeline
execution is started: the first caller starts it, and every later caller
observes `Computing` and joins that same execution. -/
theorem coalescing_single_execution (ttl : ℕ) (nows : List ℕ)
    (hne : nows ≠ []) :
    (runCalls ttl { st := .idle, execCount := 0 } nows).1.execCount = 1 ∧
      (runCalls ttl { st := .idle, execCount := 0 } nows).2.head? =
        some .started ∧
      ∀ o ∈ (runCalls ttl { st := .idle, execCount := 0 } nows).2.tail,
        o = CallOutcome.joined := by
  match nows with
  | [] => exact absurd rfl hne
  | n :: rest =>
    have hstep : getOrRefresh ttl { st := .idle, execCount := 0 } n =
        ({ st := .computing, execCount := 1 }, .started) := rfl
    have hrun : runCalls ttl { st := .idle, execCount := 0 } (n :: rest) =
        ({ st := .computing, execCount := 1 },
          .started :: rest.map fun _ => .joined) := by
      simp [runCalls, hstep, runCalls_computing]
    rw [hrun]
    refine ⟨rfl, rfl, ?_⟩
    intro o ho
    simp at ho
    exact ho.2

/-- C5 witness: three concurrent callers on an empty cache cause exactly one
execution. -/
theorem coalescing_single_execution_witness :
    (runCalls 1800 { st := .idle, execCount := 0 } [5, 6, 7]).1.execCount = 1 :=
  (coalescing_single_execution 1800 [5, 6, 7] (by decide)).1

/-! ## Multi-location aggregation (modelled from the spec, §4.4) -/

/-- One fully scored location in a comparison result. -/
structure CityScore where
  city : String
  score : ℚ
  deriving Repr, DecidableEq

/-- Modelled from the spec: the result of `compare_locations` — the number of
cities analyzed, the per-location detail for the successfully scored
locations only, and the partial-failure report naming each location whose
reading fetch failed. -/
structure ComparisonResult where
  cities_analyzed : ℕ
  city_data : List CityScore
  failed_locations : List String
  deriving Repr, DecidableEq

/-- Modelled from the spec: `compare_locations` runs the RiskScorer
independently per location; a location whose reading fetch fails (`none`) is
omitted from the results and recorded as a partial failure, never defaulted
to a fabricated score; `cities_analyzed` counts the successfully scored
locations. -/
def compare_locations (w : Weights) (fetchReading : String → Option EnvironmentalReading)
    (locations : List String) : ComparisonResult :=
  let scored := locations.filterMap fun c =>
    (fetchReading c).map fun r => CityScore.mk c (overall_risk_score w r)
  { cities_analyzed := scored.length
    city_data := scored
    failed_locations := locations.filter fun c => (fetchReading c).isNone }

/-- The number of scored locations equals the number of locations whose
fetch succeeded. -/
theorem scored_length_eq_countSuccess (w : Weights)
    (fetchReading : String → Option EnvironmentalReading) (ls : List String) :
    (ls.filterMap fun c =>
        (fetchReading c).map fun r => CityScore.mk c (overall_risk_score w r)).length =
      (ls.filter fun x => (fetchReading x).isSome).length := by
  induction ls with
  | nil => rfl
  | cons a t ih =>
    cases h : fetchReading a <;>
      simp [List.filterMap_cons, List.filter_cons, h, ih]

/-- C7.  In every `compare_locations` result: a location whose reading fetch
fails appears in no scored entry and is named among the failed locations;
every location whose fetch succeeds is still fully scored with the score of
its own reading (never a fabricated one); and `cities_analyzed` equals the
number of successfully scored locations. -/
theorem compare_locations_partial_failure (w : Weights)
    (fetchReading : String → Option EnvironmentalReading)
    (locations : List String) (c : String) (hc : c ∈ locations) :
    (fetchReading c = none →
        (∀ p ∈ (compare_locations w fetchReading locations).city_data, p.city ≠ c) ∧
          c ∈ (compare_locations w fetchReading locations).failed_locations) ∧
      (∀ r, fetchReading c = some r →
        CityScore.mk c (overall_risk_score w r) ∈
          (compare_locations w fetchReading locations).city_data) ∧
      (compare_locations w fetchReading locations).cities_analyzed =
        (locations.filter fun x => (fetchReading x).isSome).length := by
  refine ⟨fun hnone => ⟨?_, ?_⟩, fun r hr => ?_, ?_⟩
  · intro p hp
    simp only [compare_locations, List.mem_filterMap] at hp
    obtain ⟨x, -, hx⟩ := hp
    obtain ⟨rx, hrx, rfl⟩ := Option.map_eq_some'.mp hx
    intro hxc
    simp only at hxc
    rw [hxc] at hrx
    rw [hnone] at hrx
    exact Option.noConfusion hrx
  · simp only [compare_locations, List.mem_filter]
    exact ⟨hc, by simp [hnone]⟩
  · simp only [compare_locations, List.mem_filterMap]
    exact ⟨c, hc, by rw [hr]; rfl⟩
  · simp only [compare_locations]
    exact scored_length_eq_countSuccess w fetchReading locations

/-- C7 witness: the spec scenario — locations A and B where B's fetch fails;
A is fully scored, B is reported failed, one city analyzed. -/
theorem compare_locations_partial_failure_witness :
    (compare_locations (Weights.mk (1/4) (1/4) (1/4) (1/4))
        (fun c => if c = "A" then some (EnvironmentalReading.mk 24 50 40 2) else none)
        ["A", "B"]).cities_analyzed = 1 ∧
      "B" ∈ (compare_locations (Weights.mk (1/4) (1/4) (1/4) (1/4))
        (fun c => if c = "A" then some (EnvironmentalReading.mk 24 50 40 2) else none)
        ["A", "B"]).failed_locations := by
  have h := compare_locations_partial_failure (Weights.mk (1/4) (1/4) (1/4) (1/4))
    (fun c => if c = "A" then some (EnvironmentalReading.mk 24 50 40 2) else none)
    ["A", "B"] "B" (by decide)
  have hfail := (h.1 (by decide)).2
  have hcount := h.2.2
  refine ⟨?_, hfail⟩
  rw [hcount]
  decide

/-! ## Recommendation engine (modelled from the spec, §4.3; the action shapes
follow the `ai_recommendations` interface of
`src/frontend/src/components/AutonomousAgentPanel.tsx`) -/

/-- Alert priority: `critical` for departments in the critical-care set,
`high` otherwise. -/
inductive AlertPriority where
  | critical : AlertPriority
  | high : AlertPriority
  deriving Repr, DecidableEq

/-- Display rank of an alert priority: critical before high. -/
def AlertPriority.rank : AlertPriority → ℕ
  | .critical => 0
  | .high => 1

/-- Modelled from the spec: `RecommendedAction`, a closed sum with one case
per action kind (the fields mirror the `priority_alerts` /
`staffing_actions` / `inventory_actions` / `operational_recommendations`
entries consumed by `AutonomousAgentPanel.tsx`). -/
inductive RecommendedAction where
  | priorityAlert (title message : String) (priority : AlertPriority)
      (department estimated_impact : String) : RecommendedAction
  | staffingAction (department role : String) (count_change : ℤ)
      (reasoning : String) : RecommendedAction
  | inventoryAction (item : String) (quantity_change : ℤ)
      (reasoning : String) : RecommendedAction
  | operationalRecommendation (area recommendation timeline : String) :
      RecommendedAction
  deriving Repr, DecidableEq

/-- The display order contract: priority alerts (critical 0, high 1), then
staffing actions (2), then inventory actions (4), then operational
recommendations (6). -/
def displayRank : RecommendedAction → ℕ
  | .priorityAlert _ _ p _ _ => p.rank
  | .staffingAction _ _ _ _ => 2
  | .inventoryAction _ _ _ => 4
  | .operationalRecommendation _ _ _ => 6

/-- Whether an action is a critical-priority alert. -/
def isCriticalAlert : RecommendedAction → Bool
  | .priorityAlert _ _ .critical _ _ => true
  | _ => false

/-- Modelled from the spec: one `PriorityAlert` per department whose
`surge_percentage` exceeds the high-priority threshold (30%), priority
`critical` if the department is in the fixed critical-care set else `high`,
department list order preserved. -/
def priorityAlerts (criticalCare : List String) (report : SurgeReport) :
    List RecommendedAction :=
  (report.department_predictions.filter fun p => 30 < p.surge_percentage).map
    fun p =>
      RecommendedAction.priorityAlert
        ("Surge alert: " ++ p.name)
        ("Significant patient surge predicted for " ++ p.name)
        (if p.name ∈ criticalCare then .critical else .high)
        p.name "high"

/-- The alerts sorted with critical before high (stable within each
priority). -/
def sortedPriorityAlerts (criticalCare : List String) (report : SurgeReport) :
    List RecommendedAction :=
  (priorityAlerts criticalCare report).filter isCriticalAlert ++
    (priorityAlerts criticalCare report).filter fun a => ¬ isCriticalAlert a

/-- Modelled from the spec: a `StaffingAction` per department whose predicted
patients exceed the externally supplied staffing capacity, with
`count_change` the gap. -/
def staffingActions (capacity : String → ℤ) (report : SurgeReport) :
    List RecommendedAction :=
  report.department_predictions.filterMap fun p =>
    if capacity p.name < p.predicted_patients then
      some (.staffingAction p.name "nurse" (p.predicted_patients - capacity p.name)
        "predicted patients exceed staffing capacity")
    else none

/-- Modelled from the spec: an `InventoryAction` keyed to the external
department-to-consumable mapping, with `quantity_change` equal to
`(predicted_patients - base_patients) *` per-patient consumption. -/
def inventoryActions (itemFor : String → Option (String × ℕ))
    (report : SurgeReport) : List RecommendedAction :=
  report.department_predictions.filterMap fun p =>
    match itemFor p.name with
    | none => none
    | some (item, perPatient) =>
      if (p.base_patients : ℤ) < p.predicted_patients then
        some (.inventoryAction item
          ((p.predicted_patients - (p.base_patients : ℤ)) * perPatient)
          "consumable demand scales with surge patients")
      else none

/-- Modelled from the spec: a fixed catalogue of area/timeline templates
selected by risk level, with the `immediate` timeline only at high or
very-high risk. -/
def operationalRecommendations (report : SurgeReport) : List RecommendedAction :=
  if report.risk_level = "high" ∨ report.risk_level = "very_high" then
    [.operationalRecommendation "capacity"
      "Open additional beds and postpone elective procedures" "immediate"]
  else
    [.operationalRecommendation "monitoring"
      "Continue routine monitoring of environmental indicators" "within_24h"]

/-- Modelled from the spec: `compute_recommendations(report)` — priority
alerts first (critical before high), then staffing actions, then inventory
actions, then operational recommendations. -/
def compute_recommendations (criticalCare : List String) (capacity : String → ℤ)
    (itemFor : String → Option (String × ℕ)) (report : SurgeReport) :
    List RecommendedAction :=
  sortedPriorityAlerts criticalCare report ++
    (staffingActions capacity report ++
      (inventoryActions itemFor report ++
        operationalRecommendations report))

/-- A list whose elements all share one rank is pairwise ordered by rank. -/
theorem pairwise_rank_of_const {α : Type} (f : α → ℕ) (k : ℕ) :
    ∀ l : List α, (∀ x ∈ l, f x = k) →
      l.Pairwise fun x y => f x ≤ f y := by
  intro l
  induction l with
  | nil => intro _; exact List.Pairwise.nil
  | cons a t ih =>
    intro h
    refine List.Pairwise.cons (fun y hy => ?_) (ih fun x hx => h x (List.mem_cons_of_mem a hx))
    rw [h a (List.mem_cons_self a t), h y (List.mem_cons_of_mem a hy)]

/-- Appending two rank-ordered lists separated by a rank bound stays
ordered. -/
theorem pairwise_rank_append {α : Type} (f : α → ℕ) {l₁ l₂ : List α} (k : ℕ)
    (h₁ : l₁.Pairwise fun x y => f x ≤ f y)
    (h₂ : l₂.Pairwise fun x y => f x ≤ f y)
    (hb₁ : ∀ x ∈ l₁, f x ≤ k) (hb₂ : ∀ y ∈ l₂, k ≤ f y) :
    (l₁ ++ l₂).Pairwise fun x y => f x ≤ f y :=
  List.pairwise_append.mpr
    ⟨h₁, h₂, fun x hx y hy => le_trans (hb₁ x hx) (hb₂ y hy)⟩

/-- Every element of the alert group is an alert of the indicated
priority rank. -/
theorem mem_sortedPriorityAlerts_rank (criticalCare : List String)
    (report : SurgeReport) (a : RecommendedAction)
    (ha : a ∈ sortedPriorityAlerts criticalCare report) : displayRank a ≤ 1 := by
  unfold sortedPriorityAlerts at ha
  rw [List.mem_append] at ha
  have halert : ∀ b ∈ priorityAlerts criticalCare report, displayRank b ≤ 1 := by
    intro b hb
    unfold priorityAlerts at hb
    obtain ⟨p, -, rfl⟩ := List.mem_map.mp hb
    unfold displayRank
    split_ifs <;> simp [AlertPriority.rank]
  rcases ha with ha | ha
  · exact halert a (List.mem_filter.mp ha).1
  · exact halert a (List.mem_filter.mp ha).1

/-- Every staffing action has display rank 2. -/
theorem mem_staffingActions_rank (capacity : String → ℤ) (report : SurgeReport)
    (a : RecommendedAction) (ha : a ∈ staffingActions capacity report) :
    displayRank a = 2 := by
  unfold staffingActions at ha
  obtain ⟨p, -, hp⟩ := List.mem_filterMap.mp ha
  split_ifs at hp
  cases hp
  rfl

/-- Every inventory action has display rank 4. -/
theorem mem_inventoryActions_rank (itemFor : String → Option (String × ℕ))
    (report : SurgeReport) (a : RecommendedAction)
    (ha : a ∈ inventoryActions itemFor report) : displayRank a = 4 := by
  unfold inventoryActions at ha
  obtain ⟨p, -, hp⟩ := List.mem_filterMap.mp ha
  cases hit : itemFor p.name with
  | none => rw [hit] at hp; exact Option.noConfusion hp
  | some pair =>
    rw [hit] at hp
    obtain ⟨item, perPatient⟩ := pair
    simp only at hp
    split_ifs at hp
    cases hp
    rfl

/-- Every operational recommendation has display rank 6. -/
theorem mem_operationalRecommendations_rank (report : SurgeReport)
    (a : RecommendedAction) (ha : a ∈ operationalRecommendations report) :
    displayRank a = 6 := by
  unfold operationalRecommendations at ha
  split_ifs at ha <;> simp at ha <;> subst ha <;> rfl

/-- The alert group is internally ordered: critical alerts (rank 0) precede
high alerts (rank 1). -/
theorem sortedPriorityAlerts_pairwise (criticalCare : List String)
    (report : SurgeReport) :
    (sortedPriorityAlerts criticalCare report).Pairwise
      fun x y => displayRank x ≤ displayRank y := by
  unfold sortedPriorityAlerts
  have hcrit : ∀ x ∈ (priorityAlerts criticalCare report).filter isCriticalAlert,
      displayRank x = 0 := by
    intro x hx
    have hx2 := (List.mem_filter.mp hx).2
    cases x with
    | priorityAlert t m p d e =>
      cases p with
      | critical => rfl
      | high => exact absurd hx2 (by simp [isCriticalAlert])
    | staffingAction d r c rs => exact absurd hx2 (by simp [isCriticalAlert])
    | inventoryAction i q rs => exact absurd hx2 (by simp [isCriticalAlert])
    | operationalRecommendation ar rc tl => exact absurd hx2 (by simp [isCriticalAlert])
  apply pairwise_rank_append displayRank 1
  · exact pairwise_rank_of_const displayRank 0 _ hcrit
  · apply pairwise_rank_of_const displayRank 1
    intro x hx
    have hx1 := (List.mem_filter.mp hx).1
    have hx2 := (List.mem_filter.mp hx).2
    unfold priorityAlerts at hx1
    obtain ⟨p, -, rfl⟩ := List.mem_map.mp hx1
    simp only [isCriticalAlert] at hx2
    unfold displayRank
    split_ifs at hx2 ⊢ with hc
    · simp at hx2
    · rfl
  · intro x hx
    rw [hcrit x hx]
    norm_num
  · intro y hy
    have hy1 := (List.mem_filter.mp hy).1
    have hy2 := (List.mem_filter.mp hy).2
    unfold priorityAlerts at hy1
    obtain ⟨p, -, rfl⟩ := List.mem_map.mp hy1
    simp only [isCriticalAlert] at hy2
    unfold displayRank
    split_ifs at hy2 ⊢ with hc
    · simp at hy2
    · rfl

/-- C6.  The ordered list returned by `compute_recommendations` always places
all priority alerts first (critical before high), then all staffing actions,
then all inventory actions, then all operational recommendations: the output
is pairwise sorted by the display rank that encodes this contract. -/
theorem recommendations_display_order (criticalCare : List String)
    (capacity : String → ℤ) (itemFor : String → Option (String × ℕ))
    (report : SurgeReport) :
    (compute_recommendations criticalCare capacity itemFor report).Pairwise
      fun x y => displayRank x ≤ displayRank y := by
  unfold compute_recommendations
  apply pairwise_rank_append displayRank 2
    (sortedPriorityAlerts_pairwise criticalCare report)
  · apply pairwise_rank_append displayRank 4
      (pairwise_rank_of_const displayRank 2 _
        (mem_staffingActions_rank capacity report))
    · apply pairwise_rank_append displayRank 6
        (pairwise_rank_of_const displayRank 4 _
          (mem_inventoryActions_rank itemFor report))
        (pairwise_rank_of_const displayRank 6 _
          (mem_operationalRecommendations_rank report))
      · intro x hx
        rw [mem_inventoryActions_rank itemFor report x hx]
        norm_num
      · intro y hy
        rw [mem_operationalRecommendations_rank report y hy]
    · intro x hx
      rw [mem_staffingActions_rank capacity report x hx]
      norm_num
    · intro y hy
      rw [List.mem_append] at hy
      rcases hy with hy | hy
      · rw [mem_inventoryActions_rank itemFor report y hy]
      · rw [mem_operationalRecommendations_rank report y hy]
        norm_num
  · intro x hx
    exact le_trans (mem_sortedPriorityAlerts_rank criticalCare report x hx)
      (by norm_num)
  · intro y hy
    rw [List.mem_append] at hy
    rcases hy with hy | hy
    · rw [mem_staffingActions_rank capacity report y hy]
    · rw [List.mem_append] at hy
      rcases hy with hy | hy
      · rw [mem_inventoryActions_rank itemFor report y hy]
        norm_num
      · rw [mem_operationalRecommendations_rank report y hy]
        norm_num

end Algoallies
